import Mathlib

/-!
Verification of the flood-simulation core of the Flood-Response-System
repository (`src/main_code/flood_simulation.py`), as a shallow embedding.

Real numbers of the Python source (numpy float64) are modelled as exact
rationals `ℚ`; grids are total functions `ℕ → ℕ → ℚ` read only at indices
below the grid size `N`.  Random draws made by the source (depression
factors, the day/night evaporation schedule derived from the wall clock,
the spatial infiltration/runoff fields) are passed in as explicit
parameters, so every theorem quantifies over the values the generator could
have produced.
-/

namespace FloodResponse

/-- A square grid of rational values, indexed (row, column). -/
abbrev Grid := ℕ → ℕ → ℚ

/-! ### Weather forecast generator (`generate_weather_forecast`, lines 49-166) -/

/-- One entry of the `weather_scenarios` table (lines 64-70). -/
structure Scenario where
  name : String
  intensity : ℚ
  probability : ℚ
  duration : ℕ
deriving DecidableEq

/-- The fixed scenario table of lines 64-70, in source order. -/
def weather_scenarios : List Scenario :=
  [ ⟨"Light Rain", 2.0, 0.3, 6⟩,
    ⟨"Moderate Rain", 8.0, 0.4, 12⟩,
    ⟨"Heavy Rain", 25.0, 0.2, 8⟩,
    ⟨"Very Heavy Rain", 50.0, 0.08, 4⟩,
    ⟨"Extreme Rain", 100.0, 0.02, 2⟩ ]

/-- Scenario selection of lines 98-146: the scenarios are scanned in list
order, the first one whose `probability` exceeds the drawn
`event_probability` is instantiated, and the loop `break`s; if no gate
passes, no storm is instantiated for this system. -/
def select_scenario (event_probability : ℚ) : Option Scenario :=
  weather_scenarios.find? fun s => decide (event_probability < s.probability)

/-! ### Flood-extent classification (lines 305-307) -/

/-- Per-cell flood-extent classification of lines 305-307: severe (3) above
20mm, moderate (2) above 10mm, light (1) above 5mm, else 0. -/
def extentClass (w : ℚ) : ℚ :=
  if w > 20 then 3 else if w > 10 then 2 else if w > 5 then 1 else 0

/-- The flood-extent field derived from a water-depth field (line 305). -/
def extentOf (depth : ℕ → Grid) : ℕ → Grid :=
  fun t i j => extentClass (depth t i j)

/-! ### Risk classification (`analyze_flood_progression`, lines 347-355) -/

/-- Daily risk label from the day's maximum water depth (lines 347-355). -/
def risk_level (max_water_depth : ℚ) : String :=
  if max_water_depth < 50 then "Low"
  else if max_water_depth < 200 then "Moderate"
  else if max_water_depth < 500 then "High"
  else "Extreme"

/-! ### Hydrological response engine (`simulate_hydrological_response`, lines 168-319)

The per-timestep update reads, besides the precipitation, the static
infiltration and runoff fields (drawn once per run, lines 200-220), the
hour-dependent day/night evaporation switch (lines 240-244, passed here as
`isDayF : ℕ → Bool`), and the per-timestep random depression factors of
lines 263-265 (`depFac : ℕ → Grid`). -/

/-- Evaporation schedule of lines 240-244: the fixed `evaporation_rate =
2.0` mm/hour during the day (hours 06-18), 30% of it at night. -/
def evap_rate (isDayHour : Bool) : ℚ :=
  if isDayHour then 2.0 else 2.0 * 0.3

/-- Water balance of lines 235-256 at one cell: saturation, effective
infiltration, evaporation, runoff-scaled net input, capped loss, clamp at
zero, retention-threshold snap. -/
def water_balance (infl runoff : Grid) (isDayHour : Bool) (precip prev : Grid) : Grid :=
  fun i j =>
    let soil_saturation := min (prev i j / 50) 1
    let actual_infiltration := infl i j * (1 - soil_saturation * 0.8)
    let actual_evaporation := evap_rate isDayHour
    let net_input := precip i j * runoff i j
    let water_loss := min (actual_infiltration + actual_evaporation) (prev i j + net_input)
    let new_water := max (prev i j + net_input - water_loss) 0
    let retention_threshold := 0.5 + 0.5 * infl i j / 5.0
    if new_water < retention_threshold then 0 else new_water

/-- The eight neighbours of a cell, in the order of lines 277-280. -/
def neighborCells (i j : ℕ) : List (ℕ × ℕ) :=
  [(i - 1, j), (i + 1, j), (i, j - 1), (i, j + 1),
   (i - 1, j - 1), (i - 1, j + 1), (i + 1, j - 1), (i + 1, j + 1)]

/-- Variable flow factor of line 268: `0.15 + 0.1 * (runoff / base_runoff)`
with `base_runoff = 0.7`. -/
def flow_factor (runoff : Grid) : Grid :=
  fun i j => 0.15 + 0.1 * (runoff i j / 0.7)

/-- Flow amount from source cell `(i,j)` towards neighbour `(ni,nj)`
(lines 282-292), computed against the snapshot field `w`: positive only
when the source's hydraulic head `elev + w` exceeds the neighbour's. -/
def flowAmount (elev w ff : Grid) (i j ni nj : ℕ) : ℚ :=
  let current_level := elev i j + w i j
  let neighbor_level := elev ni nj + w ni nj
  if current_level > neighbor_level then
    min (w i j * ff i j * 0.4) ((current_level - neighbor_level) * 0.3)
  else 0

/-- Contribution of one source cell `s` to the `water_change` accumulator
at cell `(a,b)` (lines 275-296): only sources holding more than 3mm emit;
the full flow amount leaves the source and 80% of it reaches each downhill
neighbour. -/
def sourceDelta (elev w ff : Grid) (s : ℕ × ℕ) (a b : ℕ) : ℚ :=
  if w s.1 s.2 > 3 then
    ((neighborCells s.1 s.2).map fun n =>
      (if a = n.1 ∧ b = n.2 then flowAmount elev w ff s.1 s.2 n.1 n.2 * 0.8 else 0)
        - (if a = s.1 ∧ b = s.2 then flowAmount elev w ff s.1 s.2 n.1 n.2 else 0)).sum
  else 0

/-- The interior index range `range(1, N-1)` of lines 273-274. -/
def interiorRange (N : ℕ) : List ℕ :=
  (List.range (N - 2)).map (· + 1)

/-- The source cells scanned by the redistribution loops of lines 273-274:
interior cells only (rows and columns `1 .. N-2`), in row-major order. -/
def sourceCells (N : ℕ) : List (ℕ × ℕ) :=
  (interiorRange N).flatMap fun i => (interiorRange N).map fun j => (i, j)

/-- Sequential accumulation of the `water_change` array over a list of
source cells, exactly as the nested loops of lines 271-296 build it: the
accumulator starts at zero and every source adds its delta; crucially each
delta reads only the snapshot `w`, never the accumulator. -/
def waterChangeSeq (elev w ff : Grid) (srcs : List (ℕ × ℕ)) : Grid :=
  srcs.foldl (fun acc s => fun a b => acc a b + sourceDelta elev w ff s a b) (fun _ _ => 0)

/-- Application of the accumulated flow changes followed by the
non-negativity clamp (lines 298-300), parameterised by the order in which
source cells are scanned. -/
def applyFlow (elev ff w : Grid) (srcs : List (ℕ × ℕ)) : Grid :=
  fun a b => max (w a b + waterChangeSeq elev w ff srcs a b) 0

/-- Full surface-flow phase of a timestep with `t > 0` (lines 259-300):
depression-factor scaling (lines 263-265), then batch flow redistribution
over the interior source cells, then the clamp at zero. -/
def flowPhase (N : ℕ) (elev runoff : Grid) (depFac : Grid) (w : Grid) : Grid :=
  applyFlow elev (flow_factor runoff) (fun i j => w i j * depFac i j) (sourceCells N)

/-- The water-depth field of the simulation (lines 225-302): timestep 0 is
the bare water balance from zero previous depth; every later timestep
applies the water balance to the previous depth and then the flow phase. -/
def waterDepth (N : ℕ) (elev infl runoff : Grid) (isDayF : ℕ → Bool)
    (depFac : ℕ → Grid) (precip : ℕ → Grid) : ℕ → Grid
  | 0 => water_balance infl runoff (isDayF 0) (precip 0) (fun _ _ => 0)
  | t + 1 =>
      flowPhase N elev runoff (depFac (t + 1))
        (water_balance infl runoff (isDayF (t + 1)) (precip (t + 1))
          (waterDepth N elev infl runoff isDayF depFac precip t))

/-! ### Progression analyzer (`analyze_flood_progression`, lines 321-394)

The analyzer reduces a day's 24-timestep slice of the depth, extent and
precipitation arrays to one statistics record.  `np.max` over the
(nonnegative) slices is modelled as `List.foldl max 0`; the human-facing
`round(·, 1)` display rounding of lines 360-364 is not modelled (the risk
label is computed from the unrounded maximum in the source, line 348, and
no claim below depends on the rounding).  The date string of line 359 and
the JSON serialisation are likewise omitted. -/

/-- All cells of the `N × N` grid, row-major. -/
def cellsList (N : ℕ) : List (ℕ × ℕ) :=
  (List.range N).flatMap fun i => (List.range N).map fun j => (i, j)

/-- The values of one day's 24-hour slice of a 3-D field (lines 332-338). -/
def daySliceValues (N : ℕ) (field : ℕ → Grid) (day : ℕ) : List ℚ :=
  (List.range 24).flatMap fun h =>
    (cellsList N).map fun c => field (day * 24 + h) c.1 c.2

/-- The day's maximum water depth, `np.max(daily_water)` (line 341). -/
def dayMaxDepth (N : ℕ) (depth : ℕ → Grid) (day : ℕ) : ℚ :=
  (daySliceValues N depth day).foldl max 0

/-- The day's mean depth over wet cells, `np.mean(daily_water[daily_water > 0])`
with the NaN guard of line 361 mapping the empty selection to 0. -/
def dayAvgDepth (N : ℕ) (depth : ℕ → Grid) (day : ℕ) : ℚ :=
  let wet := (daySliceValues N depth day).filter fun x => decide (0 < x)
  if wet.length = 0 then 0 else wet.sum / wet.length

/-- The per-cell daily maximum of the flood-extent classification,
`np.max(daily_flood, axis=0)` at one cell (line 343). -/
def dayMaxExtent (ext : ℕ → Grid) (day i j : ℕ) : ℚ :=
  ((List.range 24).map fun h => ext (day * 24 + h) i j).foldl max 0

/-- The flooded-area statistic of line 343:
`np.sum(np.max(daily_flood, axis=0)) * (0.4 / grid_size) ** 2` — the SUM of
the per-cell daily-maximum classification values, scaled by the fixed
per-cell area. -/
def flooded_area_km2 (N : ℕ) (ext : ℕ → Grid) (day : ℕ) : ℚ :=
  ((cellsList N).map fun c => dayMaxExtent ext day c.1 c.2).sum * (0.4 / (N : ℚ)) ^ 2

/-- One record of `daily_stats` (lines 357-366), with the display rounding
and the date string omitted as noted above. -/
structure DayStat where
  day : ℕ
  maxDepth : ℚ
  avgDepth : ℚ
  floodedArea : ℚ
  totalPrecip : ℚ
  peakIntensity : ℚ
  risk : String
deriving DecidableEq

/-- The daily-statistics list of lines 329-366. -/
def daily_statistics (N : ℕ) (depth ext precip : ℕ → Grid) (days : ℕ) : List DayStat :=
  (List.range days).map fun day =>
    { day := day + 1
      maxDepth := dayMaxDepth N depth day
      avgDepth := dayAvgDepth N depth day
      floodedArea := flooded_area_km2 N ext day
      totalPrecip := (daySliceValues N precip day).sum
      peakIntensity := (daySliceValues N precip day).foldl max 0
      risk := risk_level (dayMaxDepth N depth day) }

/-! ### Alert generator (`generate_alerts_and_warnings`, lines 543-641)

Alert and warning records are modelled by their discriminating fields
(type label, day index, severity tag); the templated message strings of
lines 568-614, the fixed action lists and the date field are not modelled —
no claim inspects them, and they are constant per record type. -/

/-- A flood alert or warning record. -/
structure AlertRec where
  type : String
  day : ℕ
  severity : String
deriving DecidableEq

/-- The record appended for an Extreme-risk day (lines 562-576). -/
def extreme_alert (s : DayStat) : AlertRec :=
  ⟨"EXTREME FLOOD WARNING", s.day, "CRITICAL"⟩

/-- The record appended for a High-risk day (lines 578-592). -/
def severe_alert (s : DayStat) : AlertRec :=
  ⟨"SEVERE FLOOD ALERT", s.day, "HIGH"⟩

/-- The record appended for a Moderate-risk day (lines 594-606). -/
def flood_watch (s : DayStat) : AlertRec :=
  ⟨"FLOOD WATCH", s.day, "MODERATE"⟩

/-- The record appended for any other day with max depth above 10mm
(lines 608-619). -/
def flood_advisory (s : DayStat) : AlertRec :=
  ⟨"FLOOD ADVISORY", s.day, "LOW"⟩

/-- One iteration of the alert loop of lines 554-619: the `if/elif` chain
on the day's risk level, falling through to the depth-10mm advisory. -/
def alert_step (acc : List AlertRec × List AlertRec) (stat : DayStat) :
    List AlertRec × List AlertRec :=
  if stat.risk = "Extreme" then (acc.1 ++ [extreme_alert stat], acc.2)
  else if stat.risk = "High" then (acc.1 ++ [severe_alert stat], acc.2)
  else if stat.risk = "Moderate" then (acc.1, acc.2 ++ [flood_watch stat])
  else if stat.maxDepth > 10 then (acc.1, acc.2 ++ [flood_advisory stat])
  else acc

/-- The alert generator of lines 543-641: scans the daily statistics in
order, appending to the alert list or the warning list. -/
def generate_alerts_and_warnings (stats : List DayStat) :
    List AlertRec × List AlertRec :=
  stats.foldl alert_step ([], [])

/-- Days that produce an alert record: Extreme or High risk
(lines 562-592). -/
def alert_day (s : DayStat) : Bool :=
  s.risk == "Extreme" || s.risk == "High"

/-- Days that produce a warning record: Moderate risk, or Low risk with max
depth above 10mm (lines 594-619). -/
def warning_day (s : DayStat) : Bool :=
  s.risk == "Moderate" || (s.risk == "Low" && decide (s.maxDepth > 10))

/-- The alert record an alert day produces. -/
def alert_for (s : DayStat) : AlertRec :=
  if s.risk = "Extreme" then extreme_alert s else severe_alert s

/-- The warning record a warning day produces. -/
def warning_for (s : DayStat) : AlertRec :=
  if s.risk = "Moderate" then flood_watch s else flood_advisory s

/-! ### Terrain loading (lines 175-191)

The source loads `dem.tif` and resamples it to the simulation grid with
`ndimage.zoom(elevation, (N / rows, N / cols))`; on any exception it
substitutes a synthetic `N × N` elevation.  The zoom call is modelled as
index resampling (output cell `(i,j)` reads input cell
`(i·rows/N, j·cols/N)`): the spline-interpolated values are immaterial to
the claims below, while the shape behaviour — the output is defined on the
full `N × N` grid whatever the input dimensions, and no dimension check or
error path exists — is faithful to the source. -/

/-- A raw elevation raster as read from `dem.tif` (line 179). -/
structure RawDEM where
  rows : ℕ
  cols : ℕ
  data : ℕ → ℕ → ℚ

/-- Terrain acquisition of lines 176-184: the raster is resampled to the
`N × N` simulation grid, whatever its own dimensions. -/
def load_terrain (N : ℕ) (dem : RawDEM) : Grid :=
  fun i j => dem.data (i * dem.rows / N) (j * dem.cols / N)

/-- `simulate_hydrological_response` run on an externally supplied DEM:
terrain loading followed by the timestep loop. -/
def simulate_with_dem (N : ℕ) (dem : RawDEM) (infl runoff : Grid)
    (isDayF : ℕ → Bool) (depFac : ℕ → Grid) (precip : ℕ → Grid) : ℕ → Grid :=
  waterDepth N (load_terrain N dem) infl runoff isDayF depFac precip

/-! ### Spec-side model for the flooded-area claim -/

/-- Modelled from the spec: the flooded-area estimate described as the
「count of cells whose daily maximum flood-extent classification is
nonzero, scaled by a fixed per-cell area assumption」 — a COUNT, in
contrast to the source's sum of class values in `flooded_area_km2`.
Used only to compare the two formulas. -/
def flooded_area_count_model (N : ℕ) (ext : ℕ → Grid) (day : ℕ) : ℚ :=
  (((cellsList N).filter fun c =>
      decide (dayMaxExtent ext day c.1 c.2 ≠ 0)).length : ℚ) * (0.4 / (N : ℚ)) ^ 2

/-! ### Concrete inputs used by counterexamples and witnesses -/

/-- A 3×3 scene: elevation 10 at the centre cell, 0 elsewhere. -/
def cexElev : Grid := fun i j => if i = 1 ∧ j = 1 then 10 else 0

/-- Zero infiltration everywhere (an extreme but admissible soil field). -/
def cexInfl : Grid := fun _ _ => 0

/-- Runoff coefficient 1 everywhere. -/
def cexRunoff : Grid := fun _ _ => 1

/-- Night at every timestep (evaporation at 30% of the day rate). -/
def cexIsDay : ℕ → Bool := fun _ => false

/-- Neutral depression factors (no random scaling). -/
def cexDepFac : ℕ → Grid := fun _ _ _ => 1

/-- A single 100mm/h burst at the centre cell at timestep 0, then dry. -/
def cexPrecip : ℕ → Grid := fun t i j => if t = 0 ∧ i = 1 ∧ j = 1 then 100 else 0

/-- The simulated depth field of the 3×3 scene above. -/
def cexDepth : ℕ → Grid :=
  waterDepth 3 cexElev cexInfl cexRunoff cexIsDay cexDepFac cexPrecip

/-- The pre-redistribution depth of the scene at timestep 1 (water balance
applied to the timestep-0 depth). -/
def cexPre : Grid :=
  water_balance cexInfl cexRunoff (cexIsDay 1) (cexPrecip 1) (cexDepth 0)

/-- The snapshot the timestep-1 redistribution reads: the pre-redistribution
depth scaled by the (here neutral) depression factors. -/
def cexW2 : Grid := fun i j => cexPre i j * cexDepFac 1 i j

/-- An elevation field with an interior gradient, for the order-independence
witness. -/
def permElev : Grid := fun i j => (i : ℚ) - (j : ℚ)

/-- A constant flow-factor field. -/
def permFF : Grid := fun _ _ => 0.2

/-- A depth field with water above the 3mm flow threshold on interior cells. -/
def permW : Grid := fun i j => 10 * (i : ℚ) + (j : ℚ)

/-- A DEM whose dimensions (2×5) differ from every square simulation grid
used below. -/
def mismatchDEM : RawDEM := ⟨2, 5, fun i j => (i : ℚ) + (j : ℚ)⟩

/-- The all-zero precipitation forecast. -/
def zeroPrecipF : ℕ → Grid := fun _ _ _ => 0

/-- Constant unit depression factors for witnesses. -/
def oneGridF : ℕ → Grid := fun _ _ _ => 1

/-- The base infiltration field 5.0 mm/h everywhere. -/
def constInfl : Grid := fun _ _ => 5

/-- The base runoff coefficient 0.7 everywhere. -/
def constRunoff : Grid := fun _ _ => 0.7

/-- Daytime at every timestep. -/
def allDayF : ℕ → Bool := fun _ => true

/-- A constant 4 mm/h precipitation forecast, for the conservation witness. -/
def fourPrecipF : ℕ → Grid := fun _ _ _ => 4

/-- A constant 15mm depth field: every cell classifies as moderate
flooding (class 2), exposing the sum-versus-count discrepancy. -/
def depth15F : ℕ → Grid := fun _ _ _ => 15

/-- A four-day statistics list exercising every branch of the alert loop:
one Extreme, one High, one Moderate and one Low day with depth above
10mm. -/
def sampleStats : List DayStat :=
  [ ⟨1, 600, 30, 4, 120, 50, "Extreme"⟩,
    ⟨2, 300, 20, 2, 80, 30, "High"⟩,
    ⟨3, 100, 10, 1, 40, 15, "Moderate"⟩,
    ⟨4, 15, 2, 0.1, 10, 5, "Low"⟩ ]

/-! ### Claim C7: risk-label boundaries -/

/-- C7: the daily risk label is a function of the day's maximum depth alone
with exclusive, exhaustive boundaries: Low iff depth < 50, Moderate iff
50 ≤ depth < 200, High iff 200 ≤ depth < 500, Extreme iff depth ≥ 500;
in particular depth exactly 50 is labelled Moderate. -/
theorem c7_risk_classification :
    (∀ d : ℚ,
      (risk_level d = "Low" ↔ d < 50) ∧
      (risk_level d = "Moderate" ↔ 50 ≤ d ∧ d < 200) ∧
      (risk_level d = "High" ↔ 200 ≤ d ∧ d < 500) ∧
      (risk_level d = "Extreme" ↔ 500 ≤ d)) ∧
    risk_level 50 = "Moderate" := by
  constructor
  · intro d
    unfold risk_level
    split_ifs with h1 h2 h3 <;>
      refine ⟨?_, ?_, ?_, ?_⟩ <;>
      constructor <;>
      (try intro h) <;>
      first
        | rfl
        | (exact absurd h (by decide))
        | (exact h1)
        | (constructor <;> linarith)
        | linarith
  · unfold risk_level
    norm_num

/-! ### Claim C10: only the first two scenarios are reachable -/

/-- C10: because the gate `event_probability < probability` is tested in
fixed list order and the loop breaks on the first match, any value below
the Heavy (0.2), Very-Heavy (0.08) or Extreme (0.02) probability is already
below Light Rain's 0.3; hence the instantiated scenario (if any) is Light
Rain (2.0 mm/h, for gate < 0.3) or Moderate Rain (8.0 mm/h, for gate in
[0.3, 0.4)), never Heavy/Very-Heavy/Extreme, and every storm's base
intensity is at most 8.0 mm/h. -/
theorem c10_scenario_selection :
    ∀ p : ℚ,
      (p < 0.3 → select_scenario p = some ⟨"Light Rain", 2.0, 0.3, 6⟩) ∧
      (0.3 ≤ p → p < 0.4 → select_scenario p = some ⟨"Moderate Rain", 8.0, 0.4, 12⟩) ∧
      (0.4 ≤ p → select_scenario p = none) ∧
      (∀ s, select_scenario p = some s → s.intensity ≤ 8) := by
  intro p
  by_cases h1 : p < 0.3
  · refine ⟨fun _ => ?_, fun h => absurd h1 (by linarith), fun h => absurd h1 (by linarith), ?_⟩
    · simp [select_scenario, weather_scenarios, List.find?, h1]
    · intro s hs
      simp [select_scenario, weather_scenarios, List.find?, h1] at hs
      rw [← hs]
      norm_num
  · by_cases h2 : p < 0.4
    · have h02 : ¬ p < 0.2 := by linarith
      refine ⟨fun h => absurd h h1, fun _ _ => ?_, fun h => absurd h2 (by linarith), ?_⟩
      · simp [select_scenario, weather_scenarios, List.find?, h1, h2]
      · intro s hs
        simp [select_scenario, weather_scenarios, List.find?, h1, h2] at hs
        rw [← hs]
        norm_num
    · have h02 : ¬ p < 0.2 := by linarith
      have h008 : ¬ p < 0.08 := by linarith
      have h002 : ¬ p < 0.02 := by linarith
      refine ⟨fun h => absurd h h1, fun _ h => absurd h h2, fun _ => ?_, ?_⟩
      · simp [select_scenario, weather_scenarios, List.find?, h1, h2, h02, h008, h002]
      · intro s hs
        simp [select_scenario, weather_scenarios, List.find?, h1, h2, h02, h008, h002] at hs

/-! ### Helper lemmas -/

/-- The water balance never returns a negative depth (the clamp of line 252
and the snap-to-zero of line 256). -/
theorem water_balance_nonneg (infl runoff : Grid) (d : Bool) (precip prev : Grid)
    (i j : ℕ) : 0 ≤ water_balance infl runoff d precip prev i j := by
  unfold water_balance
  dsimp only
  split_ifs
  · exact le_refl 0
  · exact le_max_right _ _

/-- Every depth the simulation produces is nonnegative: timestep 0 ends in
the water-balance clamp, later timesteps in the post-redistribution clamp
of line 300. -/
theorem waterDepth_nonneg (N : ℕ) (elev infl runoff : Grid) (isDayF : ℕ → Bool)
    (depFac precip : ℕ → Grid) :
    ∀ t i j, 0 ≤ waterDepth N elev infl runoff isDayF depFac precip t i j := by
  intro t i j
  cases t with
  | zero => exact water_balance_nonneg _ _ _ _ _ i j
  | succ t =>
      simp only [waterDepth, flowPhase, applyFlow]
      exact le_max_right _ _

/-- The evaporation rate is nonnegative in both the day and night branches. -/
theorem evap_rate_nonneg (d : Bool) : 0 ≤ evap_rate d := by
  unfold evap_rate
  split_ifs <;> norm_num

/-- With zero precipitation at a dry cell, the water balance stays at zero:
the loss term of line 248 is capped by the available (zero) water. -/
theorem water_balance_zero (infl runoff : Grid) (d : Bool) (precip prev : Grid)
    (i j : ℕ) (hprev : prev i j = 0) (hp : precip i j = 0) (hi : 0 ≤ infl i j) :
    water_balance infl runoff d precip prev i j = 0 := by
  unfold water_balance
  dsimp only
  rw [hprev, hp]
  have hev := evap_rate_nonneg d
  have h1 : min ((0 : ℚ) / 50) 1 = 0 := by norm_num [min_def]
  rw [h1]
  have h2 : min (infl i j * (1 - 0 * 0.8) + evap_rate d) ((0 : ℚ) + 0 * runoff i j) = 0 := by
    have h0 : (0 : ℚ) + 0 * runoff i j = 0 := by ring
    rw [h0]
    exact min_eq_right (by nlinarith)
  rw [h2]
  norm_num

/-- Unrolling the sequential `water_change` accumulation: starting from any
accumulator, the result at a cell is the start value plus the sum of the
per-source deltas, because no delta reads the accumulator. -/
theorem foldl_add_delta (elev w ff : Grid) (l : List (ℕ × ℕ)) (g : Grid) (a b : ℕ) :
    (l.foldl (fun acc s => fun x y => acc x y + sourceDelta elev w ff s x y) g) a b
      = g a b + (l.map fun s => sourceDelta elev w ff s a b).sum := by
  induction l generalizing g with
  | nil => simp
  | cons s l ih =>
      rw [List.foldl_cons, ih, List.map_cons, List.sum_cons]
      ring

/-- The sequentially accumulated `water_change` equals the pointwise sum of
the per-source contributions. -/
theorem waterChangeSeq_eq_sum (elev w ff : Grid) (l : List (ℕ × ℕ)) (a b : ℕ) :
    waterChangeSeq elev w ff l a b = (l.map fun s => sourceDelta elev w ff s a b).sum := by
  unfold waterChangeSeq
  rw [foldl_add_delta, zero_add]

/-! ### Claim C3: snapshot semantics and order independence -/

/-- C3: every flow amount of a timestep is computed from the single
pre-redistribution snapshot `w` (the accumulator is never read by a delta)
and all contributions are applied as one batch, so the depth field produced
by the redistribution phase is identical for every iteration order over the
source cells. -/
theorem c3_order_independence :
    ∀ (N : ℕ) (elev ff w : Grid) (l : List (ℕ × ℕ)),
      l.Perm (sourceCells N) →
      ∀ a b, applyFlow elev ff w l a b = applyFlow elev ff w (sourceCells N) a b := by
  intro N elev ff w l hperm a b
  unfold applyFlow
  rw [waterChangeSeq_eq_sum, waterChangeSeq_eq_sum,
    (hperm.map fun s => sourceDelta elev w ff s a b).sum_eq]

/-- Witness for C3: on a 4×4 grid the reversed source scan is a genuine
permutation and yields the same redistributed depth at the probed cell. -/
theorem c3_order_independence_witness :
    ((sourceCells 4).reverse).Perm (sourceCells 4) ∧
      applyFlow permElev permFF permW ((sourceCells 4).reverse) 2 2
        = applyFlow permElev permFF permW (sourceCells 4) 2 2 :=
  ⟨(sourceCells 4).reverse_perm,
    c3_order_independence 4 permElev permFF permW _ ((sourceCells 4).reverse_perm) 2 2⟩

/-! ### Claim C4: non-negativity invariant -/

/-- C4: for every timestep and cell, the water depth produced by
`simulate_hydrological_response` is nonnegative, for every precipitation
forecast (in particular every nonnegative one) and every terrain and
land-surface field. -/
theorem c4_nonneg :
    ∀ (N : ℕ) (elev infl runoff : Grid) (isDayF : ℕ → Bool)
      (depFac precip : ℕ → Grid) (t i j : ℕ),
      0 ≤ waterDepth N elev infl runoff isDayF depFac precip t i j :=
  fun N elev infl runoff isDayF depFac precip t i j =>
    waterDepth_nonneg N elev infl runoff isDayF depFac precip t i j

/-- Membership in the interior index range `range(1, N-1)`. -/
theorem mem_interiorRange {N x : ℕ} : x ∈ interiorRange N ↔ 1 ≤ x ∧ x < N - 1 := by
  simp only [interiorRange, List.mem_map, List.mem_range]
  constructor
  · rintro ⟨y, hy, rfl⟩
    omega
  · intro h
    exact ⟨x - 1, by omega, by omega⟩

/-- Membership in the redistribution source scan: exactly the interior
cells. -/
theorem mem_sourceCells {N : ℕ} {s : ℕ × ℕ} :
    s ∈ sourceCells N ↔ (1 ≤ s.1 ∧ s.1 < N - 1) ∧ (1 ≤ s.2 ∧ s.2 < N - 1) := by
  simp only [sourceCells, List.mem_flatMap, List.mem_map]
  constructor
  · rintro ⟨i, hi, j, hj, rfl⟩
    exact ⟨mem_interiorRange.mp hi, mem_interiorRange.mp hj⟩
  · intro h
    exact ⟨s.1, mem_interiorRange.mpr h.1, s.2, mem_interiorRange.mpr h.2, rfl⟩

/-- A flow amount is never negative when the snapshot depth and the flow
factor at the source are nonnegative: it is either zero or a `min` of two
nonnegative quantities. -/
theorem flowAmount_nonneg (elev w ff : Grid) (i j ni nj : ℕ)
    (hw : 0 ≤ w i j) (hf : 0 ≤ ff i j) : 0 ≤ flowAmount elev w ff i j ni nj := by
  unfold flowAmount
  dsimp only
  split_ifs with h
  · refine le_min (by positivity) ?_
    have hd : 0 ≤ elev i j + w i j - (elev ni nj + w ni nj) := by linarith
    positivity
  · exact le_refl 0

/-- A cell that is not the source itself only ever gains from that source's
delta: every summand is an incoming `0.8 · flow` term or zero. -/
theorem sourceDelta_nonneg_of_ne (elev w ff : Grid) (s : ℕ × ℕ) (a b : ℕ)
    (hne : ¬(a = s.1 ∧ b = s.2)) (hw : 0 ≤ w s.1 s.2) (hf : 0 ≤ ff s.1 s.2) :
    0 ≤ sourceDelta elev w ff s a b := by
  unfold sourceDelta
  by_cases h : w s.1 s.2 > 3
  · rw [if_pos h]
    apply List.sum_nonneg
    intro x hx
    simp only [List.mem_map] at hx
    obtain ⟨n, hn, rfl⟩ := hx
    rw [if_neg hne, sub_zero]
    by_cases h2 : a = n.1 ∧ b = n.2
    · rw [if_pos h2]
      have := flowAmount_nonneg elev w ff s.1 s.2 n.1 n.2 hw hf
      linarith
    · rw [if_neg h2]
  · rw [if_neg h]

/-! ### Evaluation of the 3×3 counterexample scene -/

/-- Timestep 0 of the scene: the wet centre cell holds 99.4mm (100mm of
runoff-scaled rain minus the 0.6mm night loss). -/
theorem cexDepth0_center : cexDepth 0 1 1 = 99.4 := by
  show water_balance cexInfl cexRunoff (cexIsDay 0) (cexPrecip 0) (fun _ _ => 0) 1 1 = 99.4
  unfold water_balance cexInfl cexRunoff cexIsDay cexPrecip evap_rate
  norm_num [min_def, max_def]

/-- Timestep 0 of the scene: every other cell is dry. -/
theorem cexDepth0_off (a b : ℕ) (h : ¬(a = 1 ∧ b = 1)) : cexDepth 0 a b = 0 := by
  show water_balance cexInfl cexRunoff (cexIsDay 0) (cexPrecip 0) (fun _ _ => 0) a b = 0
  refine water_balance_zero _ _ _ _ _ a b rfl ?_ (le_refl 0)
  simp only [cexPrecip]
  rw [if_neg]
  rintro ⟨-, h2⟩
  exact h h2

/-- The pre-redistribution depth at timestep 1: the centre loses another
0.6mm of night evaporation. -/
theorem cexPre_center : cexPre 1 1 = 98.8 := by
  unfold cexPre water_balance cexInfl cexRunoff cexIsDay cexPrecip evap_rate
  rw [cexDepth0_center]
  norm_num [min_def, max_def]

/-- The pre-redistribution depth at timestep 1 away from the centre. -/
theorem cexPre_off (a b : ℕ) (h : ¬(a = 1 ∧ b = 1)) : cexPre a b = 0 := by
  unfold cexPre
  refine water_balance_zero _ _ _ _ _ a b (cexDepth0_off a b h) ?_ (le_refl 0)
  simp only [cexPrecip]
  rw [if_neg]
  rintro ⟨h1, -⟩
  exact absurd h1 one_ne_zero

/-- The redistribution snapshot at the centre (depression factors are 1). -/
theorem cexW2_center : cexW2 1 1 = 98.8 := by
  unfold cexW2 cexDepFac
  rw [cexPre_center]
  norm_num

/-- The redistribution snapshot away from the centre. -/
theorem cexW2_off (a b : ℕ) (h : ¬(a = 1 ∧ b = 1)) : cexW2 a b = 0 := by
  unfold cexW2 cexDepFac
  rw [cexPre_off a b h]
  norm_num

/-- The centre cell sends a strictly positive flow towards the border cell
(0,1): its hydraulic head 108.8 exceeds the border's 0. -/
theorem cexFlow_pos : 0 < flowAmount cexElev cexW2 (flow_factor cexRunoff) 1 1 0 1 := by
  unfold flowAmount
  dsimp only
  rw [cexW2_center, cexW2_off 0 1 (by rintro ⟨h, -⟩; exact absurd h (by norm_num))]
  unfold cexElev flow_factor cexRunoff
  norm_num [min_def]

/-- The accumulated `water_change` at the border cell (0,1) is exactly the
80%-efficient inflow from the single interior source cell. -/
theorem cexChange_eq :
    waterChangeSeq cexElev cexW2 (flow_factor cexRunoff) (sourceCells 3) 0 1
      = flowAmount cexElev cexW2 (flow_factor cexRunoff) 1 1 0 1 * 0.8 := by
  rw [waterChangeSeq_eq_sum, show sourceCells 3 = [(1, 1)] from rfl]
  simp only [List.map_cons, List.map_nil, List.sum_cons, List.sum_nil, add_zero]
  unfold sourceDelta
  dsimp only
  rw [cexW2_center, if_pos (by norm_num : (98.8 : ℚ) > 3)]
  rw [show neighborCells 1 1
      = [(0, 1), (2, 1), (1, 0), (1, 2), (0, 0), (0, 2), (2, 0), (2, 2)] from rfl]
  simp only [List.map_cons, List.map_nil, List.sum_cons, List.sum_nil]
  norm_num

/-! ### Claim C2: border cells and redistribution -/

/-- Counterexample to C2: in the 3×3 scene, after the 100mm burst at the
centre, the border cell (0,1) receives flow during the timestep-1
redistribution — its `water_change` entry is nonzero, so its depth is NOT
unchanged by the redistribution phase. -/
theorem c2_border_counterexample :
    waterChangeSeq cexElev cexW2 (flow_factor cexRunoff) (sourceCells 3) 0 1 ≠ 0 := by
  rw [cexChange_eq]
  exact (mul_pos cexFlow_pos (by norm_num)).ne'

/-- C2 amended: border cells (row or column 0 or N−1) are never scanned as
flow sources — the source loop covers interior cells only — and therefore
redistribution never decreases a border cell's depth; but border cells CAN
receive flow from adjacent interior cells, so their depth can increase
during redistribution. -/
theorem c2_amended :
    ∀ (N : ℕ) (elev w runoff : Grid) (a b : ℕ),
      (∀ i j, 0 ≤ w i j) → (∀ i j, 0 ≤ runoff i j) →
      (a = 0 ∨ a = N - 1 ∨ b = 0 ∨ b = N - 1) →
      (a, b) ∉ sourceCells N ∧
        0 ≤ waterChangeSeq elev w (flow_factor runoff) (sourceCells N) a b := by
  intro N elev w runoff a b hw hr hb
  have hff : ∀ i j, 0 ≤ flow_factor runoff i j := by
    intro i j
    have := hr i j
    have h7 : 0 ≤ runoff i j / 0.7 := by positivity
    unfold flow_factor
    linarith
  have hnot : ∀ s ∈ sourceCells N, ¬(a = s.1 ∧ b = s.2) := by
    rintro s hs ⟨ha, hbb⟩
    rw [mem_sourceCells] at hs
    rcases hb with h | h | h | h <;> omega
  refine ⟨fun hmem => hnot _ hmem ⟨rfl, rfl⟩, ?_⟩
  rw [waterChangeSeq_eq_sum]
  apply List.sum_nonneg
  intro x hx
  simp only [List.mem_map] at hx
  obtain ⟨s, hs, rfl⟩ := hx
  exact sourceDelta_nonneg_of_ne elev w _ s a b (hnot s hs) (hw _ _) (hff _ _)

/-- Witness for the amended C2: the border cell (0,1) of a 3×3 grid is not
a source and its accumulated flow change is nonnegative. -/
theorem c2_amended_witness :
    ((0 : ℕ) = 0 ∨ (0 : ℕ) = 3 - 1 ∨ (1 : ℕ) = 0 ∨ (1 : ℕ) = 3 - 1) ∧
      ((0, 1) ∉ sourceCells 3 ∧
        0 ≤ waterChangeSeq permElev permW (flow_factor constRunoff) (sourceCells 3) 0 1) :=
  ⟨Or.inl rfl,
    c2_amended 3 permElev permW constRunoff 0 1
      (fun i j => by unfold permW; positivity)
      (fun i j => by unfold constRunoff; norm_num)
      (Or.inl rfl)⟩

/-! ### Claim C1: conservation bound -/

/-- The depth of the border cell (0,1) at timestep 1 is exactly the inflow
it received: it held no water and no flow change is clamped away. -/
theorem cexDepth1_01 :
    cexDepth 1 0 1 = flowAmount cexElev cexW2 (flow_factor cexRunoff) 1 1 0 1 * 0.8 := by
  show max (cexW2 0 1 + waterChangeSeq cexElev cexW2 (flow_factor cexRunoff) (sourceCells 3) 0 1) 0
      = flowAmount cexElev cexW2 (flow_factor cexRunoff) 1 1 0 1 * 0.8
  rw [cexW2_off 0 1 (by rintro ⟨h, -⟩; exact absurd h (by norm_num)), cexChange_eq, zero_add]
  exact max_eq_left (mul_nonneg cexFlow_pos.le (by norm_num))

/-- Counterexample to C1: in the 3×3 scene the border cell (0,1) holds no
water and receives no precipitation at timestep 1, yet its depth after the
timestep-1 update is positive — redistribution inflow from the wet centre
cell pushes it strictly above `depth[0] + net_input[1]`. -/
theorem c1_conservation_counterexample :
    ¬ (cexDepth 1 0 1 ≤ cexDepth 0 0 1 + cexPrecip 1 0 1 * cexRunoff 0 1) := by
  rw [cexDepth1_01, cexDepth0_off 0 1 (by rintro ⟨h, -⟩; exact absurd h (by norm_num))]
  simp only [cexPrecip, cexRunoff]
  rw [if_neg (by rintro ⟨h1, -⟩; exact absurd h1 (by norm_num))]
  push_neg
  nlinarith [cexFlow_pos]

/-- The water balance alone respects the conservation bound: its output is
at most the previous depth plus the runoff-scaled precipitation, because
the loss term is nonnegative whenever the inputs are. -/
theorem water_balance_le (infl runoff : Grid) (d : Bool) (precip prev : Grid) (i j : ℕ)
    (hprev : 0 ≤ prev i j) (hp : 0 ≤ precip i j) (hr : 0 ≤ runoff i j)
    (hi : 0 ≤ infl i j) :
    water_balance infl runoff d precip prev i j ≤ prev i j + precip i j * runoff i j := by
  unfold water_balance
  dsimp only
  have hnet : 0 ≤ precip i j * runoff i j := mul_nonneg hp hr
  have hsat0 : 0 ≤ min (prev i j / 50) 1 := le_min (by positivity) (by norm_num)
  have hsat1 : min (prev i j / 50) 1 ≤ 1 := min_le_right _ _
  have hone : 0 ≤ 1 - min (prev i j / 50) 1 * 0.8 := by linarith
  have hinf : 0 ≤ infl i j * (1 - min (prev i j / 50) 1 * 0.8) := mul_nonneg hi hone
  have hev : 0 ≤ evap_rate d := by unfold evap_rate; split_ifs <;> norm_num
  have hloss : 0 ≤ min (infl i j * (1 - min (prev i j / 50) 1 * 0.8) + evap_rate d)
      (prev i j + precip i j * runoff i j) := le_min (by linarith) (by linarith)
  split_ifs with h
  · linarith
  · exact max_le (by linarith) (by linarith)

/-- C1 amended: the conservation bound `depth[t] ≤ depth[t-1] + net_input[t]`
holds for the PRE-redistribution provisional depth produced by the
water-balance phase of every timestep `t ≥ 1` (losses only remove water);
it fails for the final depth because the depression-factor scaling and the
80%-efficient flow inflow from higher neighbours can add water to a cell
beyond its own input. -/
theorem c1_amended :
    ∀ (N : ℕ) (elev infl runoff : Grid) (isDayF : ℕ → Bool) (depFac precip : ℕ → Grid),
      (∀ t i j, 0 ≤ precip t i j) → (∀ i j, 0 ≤ runoff i j) → (∀ i j, 0 ≤ infl i j) →
      ∀ t i j,
        water_balance infl runoff (isDayF (t + 1)) (precip (t + 1))
            (waterDepth N elev infl runoff isDayF depFac precip t) i j
          ≤ waterDepth N elev infl runoff isDayF depFac precip t i j
              + precip (t + 1) i j * runoff i j := by
  intro N elev infl runoff isDayF depFac precip hp hr hi t i j
  exact water_balance_le infl runoff _ _ _ i j
    (waterDepth_nonneg N elev infl runoff isDayF depFac precip t i j)
    (hp _ i j) (hr i j) (hi i j)

/-- Witness for the amended C1: the provisional depth at timestep 1 of a
1×1 run under constant 4mm/h rain respects the bound. -/
theorem c1_amended_witness :
    ((0 : ℚ) ≤ fourPrecipF 1 0 0 ∧ (0 : ℚ) ≤ constRunoff 0 0 ∧ (0 : ℚ) ≤ constInfl 0 0) ∧
      water_balance constInfl constRunoff (allDayF 1) (fourPrecipF 1)
          (waterDepth 1 cexElev constInfl constRunoff allDayF oneGridF fourPrecipF 0) 0 0
        ≤ waterDepth 1 cexElev constInfl constRunoff allDayF oneGridF fourPrecipF 0 0 0
            + fourPrecipF 1 0 0 * constRunoff 0 0 :=
  ⟨⟨by norm_num [fourPrecipF], by norm_num [constRunoff], by norm_num [constInfl]⟩,
    c1_amended 1 cexElev constInfl constRunoff allDayF oneGridF fourPrecipF
      (fun t i j => by norm_num [fourPrecipF])
      (fun i j => by norm_num [constRunoff])
      (fun i j => by norm_num [constInfl]) 0 0 0⟩

/-- The flow phase leaves an all-zero field at zero: no source cell
exceeds the 3mm emission threshold. -/
theorem flowPhase_zero (N : ℕ) (elev runoff depFac w : Grid)
    (hw : ∀ i j, w i j = 0) (a b : ℕ) :
    flowPhase N elev runoff depFac w a b = 0 := by
  unfold flowPhase applyFlow
  rw [waterChangeSeq_eq_sum]
  have hsum : ((sourceCells N).map fun s =>
      sourceDelta elev (fun i j => w i j * depFac i j) (flow_factor runoff) s a b).sum = 0 := by
    apply List.sum_eq_zero
    intro x hx
    simp only [List.mem_map] at hx
    obtain ⟨s, hs, rfl⟩ := hx
    unfold sourceDelta
    rw [if_neg]
    dsimp only
    rw [hw s.1 s.2, zero_mul]
    norm_num
  rw [hsum]
  dsimp only
  rw [hw a b, zero_mul, add_zero]
  norm_num

/-- With an all-zero precipitation forecast (and nonnegative infiltration,
as the generator of lines 201-202 guarantees), every cell of every timestep
keeps zero depth. -/
theorem waterDepth_zero (N : ℕ) (elev infl runoff : Grid) (isDayF : ℕ → Bool)
    (depFac precip : ℕ → Grid) (hz : ∀ t i j, precip t i j = 0)
    (hi : ∀ i j, 0 ≤ infl i j) :
    ∀ t i j, waterDepth N elev infl runoff isDayF depFac precip t i j = 0 := by
  intro t
  induction t with
  | zero =>
      intro i j
      exact water_balance_zero _ _ _ _ _ i j rfl (hz 0 i j) (hi i j)
  | succ t ih =>
      intro i j
      show flowPhase N elev runoff (depFac (t + 1))
        (water_balance infl runoff (isDayF (t + 1)) (precip (t + 1))
          (waterDepth N elev infl runoff isDayF depFac precip t)) i j = 0
      apply flowPhase_zero
      intro a b
      exact water_balance_zero _ _ _ _ _ a b (ih a b) (hz (t + 1) a b) (hi a b)

/-! ### Claim C5: terrain dimension mismatch -/

/-- Counterexample to C5: a 2×5 DEM does not match the 3×3 precipitation
grid, yet the run does not fail — it silently resamples the terrain and
produces a definite (here zero, under dry weather) depth for every
timestep and cell. -/
theorem c5_mismatch_counterexample :
    (mismatchDEM.rows ≠ 3 ∧ mismatchDEM.cols ≠ 3) ∧
      simulate_with_dem 3 mismatchDEM constInfl constRunoff allDayF oneGridF zeroPrecipF 2 1 1
        = 0 :=
  ⟨⟨by norm_num [mismatchDEM], by norm_num [mismatchDEM]⟩,
    waterDepth_zero 3 (load_terrain 3 mismatchDEM) constInfl constRunoff allDayF oneGridF
      zeroPrecipF (fun _ _ _ => rfl) (fun _ _ => by norm_num [constInfl]) 2 1 1⟩

/-- C5 amended: a terrain grid whose dimensions differ from the
precipitation grid is not rejected — `ndimage.zoom` resamples it to the
`N × N` simulation grid (reading only in-bounds raster cells), the run
proceeds, and a complete nonnegative depth field is produced for every
timestep; no dimension check or error report exists (if loading itself
raises, a synthetic `N × N` elevation is substituted and the run likewise
proceeds). -/
theorem c5_amended :
    ∀ (N : ℕ) (dem : RawDEM) (infl runoff : Grid) (isDayF : ℕ → Bool)
      (depFac precip : ℕ → Grid),
      0 < N → 0 < dem.rows → 0 < dem.cols →
      (∀ i j, i < N → j < N →
        i * dem.rows / N < dem.rows ∧ j * dem.cols / N < dem.cols) ∧
      ∀ t i j, 0 ≤ simulate_with_dem N dem infl runoff isDayF depFac precip t i j := by
  intro N dem infl runoff isDayF depFac precip hN hr hc
  constructor
  · intro i j hi hj
    constructor
    · rw [Nat.div_lt_iff_lt_mul hN]
      calc i * dem.rows < N * dem.rows := mul_lt_mul_of_pos_right hi hr
        _ = dem.rows * N := Nat.mul_comm N dem.rows
    · rw [Nat.div_lt_iff_lt_mul hN]
      calc j * dem.cols < N * dem.cols := mul_lt_mul_of_pos_right hj hc
        _ = dem.cols * N := Nat.mul_comm N dem.cols
  · intro t i j
    exact waterDepth_nonneg N (load_terrain N dem) infl runoff isDayF depFac precip t i j

/-- Witness for the amended C5 at the concrete mismatched DEM: resampling
reads in bounds and the run yields a (nonnegative) depth. -/
theorem c5_amended_witness :
    ((0 : ℕ) < 3 ∧ 0 < mismatchDEM.rows ∧ 0 < mismatchDEM.cols) ∧
      (1 * mismatchDEM.rows / 3 < mismatchDEM.rows ∧
        1 * mismatchDEM.cols / 3 < mismatchDEM.cols) ∧
      0 ≤ simulate_with_dem 3 mismatchDEM constInfl constRunoff allDayF oneGridF fourPrecipF
        1 0 0 :=
  ⟨⟨by norm_num, by norm_num [mismatchDEM], by norm_num [mismatchDEM]⟩,
    (c5_amended 3 mismatchDEM constInfl constRunoff allDayF oneGridF fourPrecipF
      (by norm_num) (by norm_num [mismatchDEM]) (by norm_num [mismatchDEM])).1 1 1
      (by norm_num) (by norm_num),
    (c5_amended 3 mismatchDEM constInfl constRunoff allDayF oneGridF fourPrecipF
      (by norm_num) (by norm_num [mismatchDEM]) (by norm_num [mismatchDEM])).2 1 0 0⟩

/-! ### Claim C6: the flooded-area statistic -/

/-- The flood-extent classification takes only the values 0, 1, 2 and 3. -/
theorem extentClass_cases (w : ℚ) :
    extentClass w = 0 ∨ extentClass w = 1 ∨ extentClass w = 2 ∨ extentClass w = 3 := by
  unfold extentClass
  split_ifs <;> simp

/-- The property 「zero, or between 1 and 3」 is preserved by `max`. -/
theorem max_class_prop {a b : ℚ} (ha : a = 0 ∨ 1 ≤ a ∧ a ≤ 3)
    (hb : b = 0 ∨ 1 ≤ b ∧ b ≤ 3) :
    max a b = 0 ∨ 1 ≤ max a b ∧ max a b ≤ 3 := by
  rcases le_total a b with h | h
  · rw [max_eq_right h]; exact hb
  · rw [max_eq_left h]; exact ha

/-- A left fold of `max` over class values starting from a class value is a
class value. -/
theorem foldl_max_class_prop (l : List ℚ) (a : ℚ) (ha : a = 0 ∨ 1 ≤ a ∧ a ≤ 3)
    (hl : ∀ x ∈ l, x = 0 ∨ 1 ≤ x ∧ x ≤ 3) :
    l.foldl max a = 0 ∨ 1 ≤ l.foldl max a ∧ l.foldl max a ≤ 3 := by
  induction l generalizing a with
  | nil => exact ha
  | cons x l ih =>
      rw [List.foldl_cons]
      exact ih (max a x) (max_class_prop ha (hl x (by simp)))
        (fun y hy => hl y (by simp [hy]))

/-- The per-cell daily maximum of the flood-extent classification is zero
or lies between 1 and 3. -/
theorem dayMaxExtent_class (depth : ℕ → Grid) (day i j : ℕ) :
    dayMaxExtent (extentOf depth) day i j = 0 ∨
      (1 ≤ dayMaxExtent (extentOf depth) day i j ∧
        dayMaxExtent (extentOf depth) day i j ≤ 3) := by
  unfold dayMaxExtent
  apply foldl_max_class_prop
  · exact Or.inl rfl
  · intro x hx
    simp only [List.mem_map] at hx
    obtain ⟨h, -, rfl⟩ := hx
    unfold extentOf
    rcases extentClass_cases (depth (day * 24 + h) i j) with h0 | h1 | h2 | h3
    · exact Or.inl h0
    · exact Or.inr ⟨by rw [h1], by rw [h1]; norm_num⟩
    · exact Or.inr ⟨by rw [h2]; norm_num, by rw [h2]; norm_num⟩
    · exact Or.inr ⟨by rw [h3]; norm_num, by rw [h3]⟩

/-- For a list of class values, the count of nonzero entries bounds the sum
below and a third of it above. -/
theorem count_le_sum (f : ℕ × ℕ → ℚ) (l : List (ℕ × ℕ))
    (h : ∀ c ∈ l, f c = 0 ∨ 1 ≤ f c ∧ f c ≤ 3) :
    ((l.filter fun c => decide (f c ≠ 0)).length : ℚ) ≤ (l.map f).sum ∧
      (l.map f).sum ≤ 3 * ((l.filter fun c => decide (f c ≠ 0)).length : ℚ) := by
  induction l with
  | nil => simp
  | cons c l ih =>
      have hc := h c (by simp)
      have ihl := ih (fun y hy => h y (by simp [hy]))
      rw [List.filter_cons, List.map_cons, List.sum_cons]
      rcases hc with h0 | ⟨h1, h3⟩
      · rw [if_neg (by simp only [decide_eq_true_eq]; rw [h0]; norm_num), h0]
        constructor
        · linarith [ihl.1]
        · linarith [ihl.2]
      · have hne : f c ≠ 0 := by intro h; rw [h] at h1; linarith
        rw [if_pos (by simp only [decide_eq_true_eq]; exact hne)]
        rw [List.length_cons]
        push_cast
        constructor
        · linarith [ihl.1]
        · linarith [ihl.2]

/-- Evaluation of the daily maximum classification of the constant 15mm
depth field: every hour classifies as moderate flooding (class 2). -/
theorem dayMaxExtent_const15 : dayMaxExtent (extentOf depth15F) 0 0 0 = 2 := by
  have hstep : ∀ n : ℕ, ((List.range (n + 1)).map fun _ => (2 : ℚ)).foldl max 0 = 2 := by
    intro n
    induction n with
    | zero => simp [max_eq_right]
    | succ n ih =>
        rw [List.range_succ, List.map_append, List.foldl_append, ih]
        simp
  unfold dayMaxExtent extentOf depth15F extentClass
  norm_num
  exact hstep 23

/-- Counterexample to C6: on a 1×1 grid whose single cell has daily maximum
classification 2, the source statistic is `2 · (0.4/N)²` — twice the
count-based value the claim describes; the statistic DOES depend on which
nonzero class a flooded cell has. -/
theorem c6_area_counterexample :
    flooded_area_km2 1 (extentOf depth15F) 0
      ≠ flooded_area_count_model 1 (extentOf depth15F) 0 := by
  unfold flooded_area_km2 flooded_area_count_model
  rw [show cellsList 1 = [(0, 0)] from rfl]
  rw [List.filter_cons, List.filter_nil,
    if_pos (by simp only [decide_eq_true_eq]; rw [dayMaxExtent_const15]; norm_num)]
  simp only [List.map_cons, List.map_nil, List.sum_cons, List.sum_nil, List.length_cons,
    List.length_nil]
  rw [dayMaxExtent_const15]
  norm_num

/-- C6 amended: for every simulated day, the flooded-area statistic equals
the SUM over cells of the daily-maximum flood-extent classification values
(so a cell contributes its class 1, 2 or 3, not 1), scaled by
`(0.4/N)²`; consequently it lies between the count of flooded cells times
the per-cell area and three times that value, and it does depend on the
class. -/
theorem c6_amended :
    ∀ (N : ℕ) (depth : ℕ → Grid) (day : ℕ),
      (((cellsList N).filter fun c =>
          decide (dayMaxExtent (extentOf depth) day c.1 c.2 ≠ 0)).length : ℚ)
          * (0.4 / (N : ℚ)) ^ 2
        ≤ flooded_area_km2 N (extentOf depth) day ∧
      flooded_area_km2 N (extentOf depth) day
        ≤ 3 * (((cellsList N).filter fun c =>
            decide (dayMaxExtent (extentOf depth) day c.1 c.2 ≠ 0)).length : ℚ)
            * (0.4 / (N : ℚ)) ^ 2 := by
  intro N depth day
  unfold flooded_area_km2
  have ha : (0 : ℚ) ≤ (0.4 / (N : ℚ)) ^ 2 := sq_nonneg _
  have key := count_le_sum (fun c => dayMaxExtent (extentOf depth) day c.1 c.2) (cellsList N)
    (fun c _ => dayMaxExtent_class depth day c.1 c.2)
  constructor
  · exact mul_le_mul_of_nonneg_right key.1 ha
  · calc ((cellsList N).map fun c => dayMaxExtent (extentOf depth) day c.1 c.2).sum
          * (0.4 / (N : ℚ)) ^ 2
        ≤ (3 * (((cellsList N).filter fun c =>
            decide (dayMaxExtent (extentOf depth) day c.1 c.2 ≠ 0)).length : ℚ))
            * (0.4 / (N : ℚ)) ^ 2 := mul_le_mul_of_nonneg_right key.2 ha
      _ = 3 * (((cellsList N).filter fun c =>
            decide (dayMaxExtent (extentOf depth) day c.1 c.2 ≠ 0)).length : ℚ)
            * (0.4 / (N : ℚ)) ^ 2 := by ring

/-! ### Claim C8: zero precipitation scenario -/

/-- A left fold of `max` from 0 over an all-zero list is 0. -/
theorem foldl_max_zero (l : List ℚ) (h : ∀ x ∈ l, x = 0) : l.foldl max 0 = 0 := by
  induction l with
  | nil => rfl
  | cons x l ih =>
      rw [List.foldl_cons, h x (by simp), max_self]
      exact ih fun y hy => h y (by simp [hy])

/-- The day's maximum depth of an all-zero depth field is 0. -/
theorem dayMaxDepth_zero (N : ℕ) (depth : ℕ → Grid) (day : ℕ)
    (h : ∀ t i j, depth t i j = 0) : dayMaxDepth N depth day = 0 := by
  unfold dayMaxDepth
  apply foldl_max_zero
  intro x hx
  simp only [daySliceValues, List.mem_flatMap, List.mem_map] at hx
  obtain ⟨a, -, c, -, rfl⟩ := hx
  exact h _ _ _

/-- A day whose statistics trigger no branch of the alert chain leaves the
accumulator untouched. -/
theorem alert_step_skip (acc : List AlertRec × List AlertRec) (s : DayStat)
    (h1 : s.risk ≠ "Extreme") (h2 : s.risk ≠ "High") (h3 : s.risk ≠ "Moderate")
    (h4 : ¬ s.maxDepth > 10) : alert_step acc s = acc := by
  unfold alert_step
  rw [if_neg h1, if_neg h2, if_neg h3, if_neg h4]

/-- The alert fold over days that are all Low-risk with depth at most 10mm
returns the accumulator unchanged. -/
theorem foldl_alert_skip :
    ∀ (stats : List DayStat) (acc : List AlertRec × List AlertRec),
      (∀ s ∈ stats, s.risk = "Low" ∧ ¬ s.maxDepth > 10) →
      stats.foldl alert_step acc = acc := by
  intro stats
  induction stats with
  | nil => intro acc _; rfl
  | cons s l ih =>
      intro acc h
      have hs := h s (by simp)
      rw [List.foldl_cons,
        alert_step_skip acc s (by rw [hs.1]; decide) (by rw [hs.1]; decide)
          (by rw [hs.1]; decide) hs.2]
      exact ih acc fun y hy => h y (by simp [hy])

/-- Daily statistics that are all Low-risk with depth at most 10mm generate
no alerts and no warnings. -/
theorem generate_alerts_empty (stats : List DayStat)
    (h : ∀ s ∈ stats, s.risk = "Low" ∧ ¬ s.maxDepth > 10) :
    generate_alerts_and_warnings stats = ([], []) := by
  unfold generate_alerts_and_warnings
  exact foldl_alert_skip stats ([], []) h

/-- C8: if the precipitation array is zero at every timestep and cell, then
every entry of the water-depth and flood-extent arrays is zero, and the
alert generator run on the resulting daily statistics produces empty alert
and warning lists.  (Nonnegative infiltration is what the spatial-field
generator of lines 201-202 always produces.) -/
theorem c8_zero_precipitation :
    ∀ (N : ℕ) (elev infl runoff : Grid) (isDayF : ℕ → Bool) (depFac precip : ℕ → Grid)
      (days : ℕ),
      (∀ t i j, precip t i j = 0) → (∀ i j, 0 ≤ infl i j) →
      (∀ t i j, waterDepth N elev infl runoff isDayF depFac precip t i j = 0) ∧
      (∀ t i j, extentOf (waterDepth N elev infl runoff isDayF depFac precip) t i j = 0) ∧
      generate_alerts_and_warnings
        (daily_statistics N (waterDepth N elev infl runoff isDayF depFac precip)
          (extentOf (waterDepth N elev infl runoff isDayF depFac precip)) precip days)
        = ([], []) := by
  intro N elev infl runoff isDayF depFac precip days hz hi
  have hd := waterDepth_zero N elev infl runoff isDayF depFac precip hz hi
  refine ⟨hd, ?_, ?_⟩
  · intro t i j
    unfold extentOf
    rw [hd t i j]
    unfold extentClass
    norm_num
  · apply generate_alerts_empty
    intro s hs
    simp only [daily_statistics, List.mem_map, List.mem_range] at hs
    obtain ⟨d, -, rfl⟩ := hs
    constructor
    · show risk_level (dayMaxDepth N _ d) = "Low"
      rw [dayMaxDepth_zero N _ d hd]
      unfold risk_level
      norm_num
    · show ¬ dayMaxDepth N _ d > 10
      rw [dayMaxDepth_zero N _ d hd]
      norm_num

/-- Witness for C8 on a concrete 1×1 dry run over 2 days. -/
theorem c8_zero_precipitation_witness :
    waterDepth 1 cexElev constInfl constRunoff allDayF oneGridF zeroPrecipF 3 0 0 = 0 ∧
      extentOf (waterDepth 1 cexElev constInfl constRunoff allDayF oneGridF zeroPrecipF)
        3 0 0 = 0 ∧
      generate_alerts_and_warnings
        (daily_statistics 1
          (waterDepth 1 cexElev constInfl constRunoff allDayF oneGridF zeroPrecipF)
          (extentOf (waterDepth 1 cexElev constInfl constRunoff allDayF oneGridF zeroPrecipF))
          zeroPrecipF 2) = ([], []) :=
  ⟨(c8_zero_precipitation 1 cexElev constInfl constRunoff allDayF oneGridF zeroPrecipF 2
      (fun _ _ _ => rfl) (fun _ _ => by norm_num [constInfl])).1 3 0 0,
    (c8_zero_precipitation 1 cexElev constInfl constRunoff allDayF oneGridF zeroPrecipF 2
      (fun _ _ _ => rfl) (fun _ _ => by norm_num [constInfl])).2.1 3 0 0,
    (c8_zero_precipitation 1 cexElev constInfl constRunoff allDayF oneGridF zeroPrecipF 2
      (fun _ _ _ => rfl) (fun _ _ => by norm_num [constInfl])).2.2⟩

/-! ### Claim C9: the alert/warning partition -/

/-- Both alert constructors keep the day index of the statistics record. -/
theorem alert_for_day (s : DayStat) : (alert_for s).day = s.day := by
  unfold alert_for extreme_alert severe_alert
  split_ifs <;> rfl

/-- Both warning constructors keep the day index of the statistics
record. -/
theorem warning_for_day (s : DayStat) : (warning_for s).day = s.day := by
  unfold warning_for flood_watch flood_advisory
  split_ifs <;> rfl

/-- In a statistics list with pairwise distinct day indices, records with
equal day indices are the same record. -/
theorem eq_of_mem_pairwise_day {stats : List DayStat}
    (hp : stats.Pairwise fun s1 s2 => s1.day ≠ s2.day) :
    ∀ s1 ∈ stats, ∀ s2 ∈ stats, s1.day = s2.day → s1 = s2 := by
  induction stats with
  | nil => intro s1 h; simp at h
  | cons x l ih =>
      rw [List.pairwise_cons] at hp
      intro s1 h1 s2 h2 hday
      rcases List.mem_cons.mp h1 with rfl | h1m <;> rcases List.mem_cons.mp h2 with rfl | h2m
      · rfl
      · exact absurd hday (hp.1 s2 h2m)
      · exact absurd hday.symm (hp.1 s1 h1m)
      · exact ih hp.2 s1 h1m s2 h2m hday

/-- The alert fold, started from any accumulator pair, appends exactly the
alert records of the alert days and the warning records of the warning
days, in day order. -/
theorem foldl_alert_partition :
    ∀ (stats : List DayStat) (A W : List AlertRec),
      (∀ s ∈ stats,
        s.risk = "Low" ∨ s.risk = "Moderate" ∨ s.risk = "High" ∨ s.risk = "Extreme") →
      stats.foldl alert_step (A, W)
        = (A ++ (stats.filter alert_day).map alert_for,
            W ++ (stats.filter warning_day).map warning_for) := by
  intro stats
  induction stats with
  | nil => intro A W _; simp
  | cons s l ih =>
      intro A W h
      have hs := h s (by simp)
      have hl : ∀ y ∈ l,
          y.risk = "Low" ∨ y.risk = "Moderate" ∨ y.risk = "High" ∨ y.risk = "Extreme" :=
        fun y hy => h y (by simp [hy])
      rw [List.foldl_cons, List.filter_cons, List.filter_cons]
      rcases hs with hL | hM | hH | hE
      · by_cases hd : s.maxDepth > 10
        · have hstep : alert_step (A, W) s = (A, W ++ [flood_advisory s]) := by
            unfold alert_step
            rw [if_neg (by rw [hL]; decide), if_neg (by rw [hL]; decide),
              if_neg (by rw [hL]; decide), if_pos hd]
          have hA : alert_day s = false := by unfold alert_day; rw [hL]; rfl
          have hW : warning_day s = true := by
            unfold warning_day
            rw [hL, decide_eq_true hd]
            rfl
          have hwf : warning_for s = flood_advisory s := by
            unfold warning_for
            rw [if_neg (by rw [hL]; decide)]
          rw [hstep, ih A (W ++ [flood_advisory s]) hl, hA, hW]
          simp [hwf]
        · have hstep : alert_step (A, W) s = (A, W) := by
            unfold alert_step
            rw [if_neg (by rw [hL]; decide), if_neg (by rw [hL]; decide),
              if_neg (by rw [hL]; decide), if_neg hd]
          have hA : alert_day s = false := by unfold alert_day; rw [hL]; rfl
          have hW : warning_day s = false := by
            unfold warning_day
            rw [hL, decide_eq_false hd]
            rfl
          rw [hstep, ih A W hl, hA, hW]
          simp
      · have hstep : alert_step (A, W) s = (A, W ++ [flood_watch s]) := by
          unfold alert_step
          rw [if_neg (by rw [hM]; decide), if_neg (by rw [hM]; decide), if_pos hM]
        have hA : alert_day s = false := by unfold alert_day; rw [hM]; rfl
        have hW : warning_day s = true := by unfold warning_day; rw [hM]; rfl
        have hwf : warning_for s = flood_watch s := by
          unfold warning_for
          rw [if_pos hM]
        rw [hstep, ih A (W ++ [flood_watch s]) hl, hA, hW]
        simp [hwf]
      · have hstep : alert_step (A, W) s = (A ++ [severe_alert s], W) := by
          unfold alert_step
          rw [if_neg (by rw [hH]; decide), if_pos hH]
        have hA : alert_day s = true := by unfold alert_day; rw [hH]; rfl
        have hW : warning_day s = false := by
          unfold warning_day
          rw [hH]
          rfl
        have haf : alert_for s = severe_alert s := by
          unfold alert_for
          rw [if_neg (by rw [hH]; decide)]
        rw [hstep, ih (A ++ [severe_alert s]) W hl, hA, hW]
        simp [haf]
      · have hstep : alert_step (A, W) s = (A ++ [extreme_alert s], W) := by
          unfold alert_step
          rw [if_pos hE]
        have hA : alert_day s = true := by unfold alert_day; rw [hE]; rfl
        have hW : warning_day s = false := by
          unfold warning_day
          rw [hE]
          rfl
        have haf : alert_for s = extreme_alert s := by
          unfold alert_for
          rw [if_pos hE]
        rw [hstep, ih (A ++ [extreme_alert s]) W hl, hA, hW]
        simp [haf]

/-- C9: the alert generator partitions the daily statistics: Extreme and
High days each yield exactly one alert record, Moderate days and Low days
with max depth above 10mm each yield exactly one warning record, all other
days yield nothing, and (for statistics with distinct day indices, as the
analyzer produces) no day appears in both lists. -/
theorem c9_alert_partition :
    ∀ stats : List DayStat,
      (∀ s ∈ stats,
        s.risk = "Low" ∨ s.risk = "Moderate" ∨ s.risk = "High" ∨ s.risk = "Extreme") →
      stats.Pairwise (fun s1 s2 => s1.day ≠ s2.day) →
      (generate_alerts_and_warnings stats).1 = (stats.filter alert_day).map alert_for ∧
      (generate_alerts_and_warnings stats).2 = (stats.filter warning_day).map warning_for ∧
      (∀ s ∈ stats, ¬(alert_day s = true ∧ warning_day s = true)) ∧
      (∀ a ∈ (generate_alerts_and_warnings stats).1,
        ∀ w ∈ (generate_alerts_and_warnings stats).2, a.day ≠ w.day) := by
  intro stats hv hp
  have hfold := foldl_alert_partition stats [] [] hv
  have h1 : (generate_alerts_and_warnings stats).1 = (stats.filter alert_day).map alert_for := by
    unfold generate_alerts_and_warnings
    rw [hfold]
    simp
  have h2 : (generate_alerts_and_warnings stats).2
      = (stats.filter warning_day).map warning_for := by
    unfold generate_alerts_and_warnings
    rw [hfold]
    simp
  have h3 : ∀ s ∈ stats, ¬(alert_day s = true ∧ warning_day s = true) := by
    rintro s hsm ⟨ha, hw⟩
    simp only [alert_day, warning_day, Bool.or_eq_true, Bool.and_eq_true, beq_iff_eq,
      decide_eq_true_eq] at ha hw
    rcases ha with h | h <;> rcases hw with h2 | ⟨h2, -⟩ <;> rw [h] at h2 <;>
      exact absurd h2 (by decide)
  refine ⟨h1, h2, h3, ?_⟩
  intro a ha w hw
  rw [h1] at ha
  rw [h2] at hw
  simp only [List.mem_map, List.mem_filter] at ha hw
  obtain ⟨s1, ⟨hs1, ha1⟩, rfl⟩ := ha
  obtain ⟨s2, ⟨hs2, hw2⟩, rfl⟩ := hw
  rw [alert_for_day, warning_for_day]
  intro hday
  have heq := eq_of_mem_pairwise_day hp s1 hs1 s2 hs2 hday
  subst heq
  exact h3 s1 hs1 ⟨ha1, hw2⟩

/-- Witness for C9 on the concrete four-day statistics list: the generator
produces the filtered alert and warning lists. -/
theorem c9_alert_partition_witness :
    (generate_alerts_and_warnings sampleStats).1
        = (sampleStats.filter alert_day).map alert_for ∧
      (generate_alerts_and_warnings sampleStats).2
        = (sampleStats.filter warning_day).map warning_for :=
  ⟨(c9_alert_partition sampleStats
      (by intro s hs
          simp only [sampleStats, List.mem_cons, List.not_mem_nil, or_false] at hs
          rcases hs with rfl | rfl | rfl | rfl <;> simp)
      (by simp [sampleStats, List.pairwise_cons])).1,
    (c9_alert_partition sampleStats
      (by intro s hs
          simp only [sampleStats, List.mem_cons, List.not_mem_nil, or_false] at hs
          rcases hs with rfl | rfl | rfl | rfl <;> simp)
      (by simp [sampleStats, List.pairwise_cons])).2.1⟩

/-- Witness for C10 at concrete gate values: 0.25 selects Light Rain, 0.35
selects Moderate Rain, 0.5 selects nothing. -/
theorem c10_scenario_selection_witness :
    select_scenario 0.25 = some ⟨"Light Rain", 2.0, 0.3, 6⟩ ∧
      select_scenario 0.35 = some ⟨"Moderate Rain", 8.0, 0.4, 12⟩ ∧
      select_scenario 0.5 = none :=
  ⟨(c10_scenario_selection 0.25).1 (by norm_num),
    (c10_scenario_selection 0.35).2.1 (by norm_num) (by norm_num),
    (c10_scenario_selection 0.5).2.2.1 (by norm_num)⟩

end FloodResponse
